import Mathlib

/-!
Shallow embedding of the tasteMirror backend (`backend/app/main.py`).

The backend is a single FastAPI endpoint `POST /analyze` that
resolves free-text preferences to entity ids via a taste-graph
provider, fetches trending names, calls a language model twice
(persona and per-country insights) and assembles a JSON response.
External HTTP and model calls are modelled as oracle functions
carried in an `Env` record; everything else is translated directly
from the Python source.
-/

set_option autoImplicit false

namespace TasteMirror

/-- Python string containment `needle in hay`: `needle` occurs as a
contiguous substring of `hay` (the empty string is in everything). -/
def pyInStr (needle hay : String) : Bool :=
  (List.range (hay.data.length + 1)).any fun i =>
    needle.data.isPrefixOf (hay.data.drop i)

/-- Python `str.lower()`, character-wise lowering of the string. -/
def pyLower (s : String) : String := ⟨s.data.map Char.toLower⟩

/-- Python `str.strip()`: drop leading and trailing whitespace. -/
def pyStrip (s : String) : String :=
  ⟨((s.data.dropWhile Char.isWhitespace).reverse.dropWhile
      Char.isWhitespace).reverse⟩

/-- `LANGUAGE_MAPPING` dictionary from `main.py` lines 20-29. -/
def LANGUAGE_MAPPING : List (String × String) :=
  [("en", "English"), ("tr", "Turkish"), ("es", "Spanish"), ("fr", "French"),
   ("de", "German"), ("hi", "Hindi"), ("zh", "Chinese"), ("it", "Italian")]

/-- `LANGUAGE_MAPPING.get(language, "English")` (lines 51 and 141). -/
def language_display (code : String) : String :=
  (LANGUAGE_MAPPING.lookup code).getD "English"

/-- One autocomplete candidate: a JSON object whose `type` and `id`
fields may each be absent (accessed with `r.get(...)` in the source). -/
structure Candidate where
  type : Option String
  id : Option String
deriving Repr, DecidableEq

/-- Response of the autocomplete endpoint: HTTP status plus
`response.json().get("results", [])`. -/
structure AutoResp where
  status : Nat
  results : List Candidate
deriving Repr

/-- One trending result item; `name` may be absent. -/
structure TrendItem where
  name : Option String
deriving Repr, DecidableEq

/-- Response of the trending endpoint. -/
structure TrendResp where
  status : Nat
  results : List TrendItem
deriving Repr

/-- The match test of `autocomplete_entity` line 103:
`entity_type in r.get("type", "").lower()`. -/
def matchesType (entity_type : String) (ty : Option String) : Bool :=
  pyInStr entity_type (pyLower (ty.getD ""))

/-- Case-insensitive containment of the category in the reported type,
as the specification phrases the match. -/
def ciMatch (entity_type : String) (ty : Option String) : Bool :=
  pyInStr (pyLower entity_type) (pyLower (ty.getD ""))

/-- The `for r in results` loop of `autocomplete_entity` (lines 102-104):
returns `r.get("id", "")` for the first candidate whose type matches. -/
def firstMatchId (entity_type : String) : List Candidate → Option String
  | [] => none
  | r :: rs =>
    if matchesType entity_type r.type then some (r.id.getD "")
    else firstMatchId entity_type rs

/-- `autocomplete_entity` (lines 90-107). The outbound GET is the oracle
`auto`, keyed by the query string (the URL contains only the query). -/
def autocomplete_entity (auto : String → AutoResp) (query : String)
    (entity_type : String) : Option String :=
  let response := auto query
  if response.status = 200 then firstMatchId entity_type response.results
  else none

/-- Python truthiness test `not entity_id` on an `Optional[str]`:
true for `None` and for the empty string. -/
def pyFalsy : Option String → Bool
  | none => true
  | some s => s == ""

/-- Whether `get_qloo_trending` reaches its `requests.get` call: the
guard `if not entity_id: return []` (lines 111-112) precedes it. -/
def qloo_trending_calls (entity_id : Option String) : Bool :=
  !pyFalsy entity_id

/-- `get_qloo_trending` (lines 110-137). The outbound GET is the oracle
`trending`, keyed by entity id and entity type (the date window is part
of the URL but only the oracle's answer matters to the result). The
comprehension on line 136 is `[i.get("name", "Unknown") for i in items
if "name" in i]`. -/
def get_qloo_trending (trending : String → String → TrendResp)
    (entity_id : Option String) (entity_type : String) : List String :=
  if pyFalsy entity_id then []
  else
    let response := trending (entity_id.getD "") entity_type
    if response.status = 200 then
      (response.results.filter fun i => i.name.isSome).map
        fun i => i.name.getD "Unknown"
    else []

/-- Exceptions that can reach the handler's `except Exception` block. -/
inductive Exc where
  | keyError (key : String)
  | httpExc (status : Nat) (detail : String)
  | jsonDecodeError (msg : String)
deriving Repr, DecidableEq

/-- Python `str(e)` for each modelled exception: `KeyError` prints its
key in quotes, Starlette's `HTTPException` prints `status: detail`. -/
def excMessage : Exc → String
  | .keyError k => "'" ++ k ++ "'"
  | .httpExc s d => toString s ++ ": " ++ d
  | .jsonDecodeError m => m

/-- The data handed to the persona model call in
`generate_persona_from_taste`: the prompt fields (lines 143-187) and
the sampling temperature. -/
structure PersonaCall where
  movies : String
  music : String
  brands : String
  gender : String
  qloo_suggestions : List String
  target_language : String
  variation_seed : Int
  temperature : ℚ

/-- `base_temperature = 0.8 + (variation_seed * 0.05)` (line 189). -/
def base_temperature (variation_seed : Int) : ℚ :=
  0.8 + (variation_seed : ℚ) * 0.05

/-- `capped_temperature = min(base_temperature, 2.0)` (line 190). -/
def capped_temperature (variation_seed : Int) : ℚ :=
  min (base_temperature variation_seed) 2

/-- The persona call record built by `generate_persona_from_taste`
before invoking the provider (lines 141-197). -/
def persona_call (movies music brands gender : String)
    (qloo_suggestions : List String) (language : String)
    (variation_seed : Int) : PersonaCall :=
  { movies, music, brands, gender, qloo_suggestions,
    target_language := language_display language,
    variation_seed,
    temperature := capped_temperature variation_seed }

/-- `generate_persona_from_taste` (lines 140-204). The provider is the
oracle `gpt`; it may return no content (`None`). Empty content raises
`HTTPException(500, "GPT returned empty response")`; otherwise the
stripped content is returned. -/
def generate_persona_from_taste (gpt : PersonaCall → Option String)
    (movies music brands gender : String) (qloo_suggestions : List String)
    (language : String) (variation_seed : Int) : Except Exc String :=
  let content := gpt
    (persona_call movies music brands gender qloo_suggestions language
      variation_seed)
  match content with
  | none => .error (.httpExc 500 "GPT returned empty response")
  | some c =>
    if c = "" then .error (.httpExc 500 "GPT returned empty response")
    else .ok (pyStrip c)

/-- One item of the parsed cultural-map JSON array: a JSON object whose
fields may each be absent. -/
structure CItem where
  country : Option String
  culturalInsight : Option String
  recommendation : Option String
deriving Repr, DecidableEq

/-- The data handed to the cultural-map model call: the prompt fields
of `generate_cultural_map_insights` (lines 53-67). -/
structure CultureCall where
  countries : List String
  target_language : String

/-- The cultural-map call record built before invoking the provider. -/
def culture_call (countries : List String) (language : String) : CultureCall :=
  { countries, target_language := language_display language }

/-- Python-dict insertion: an existing key keeps its position and gets
the new value, a new key is appended. -/
def dictInsert (m : List (String × CItem)) (k : String) (v : CItem) :
    List (String × CItem) :=
  if m.any (fun p => p.1 == k) then
    m.map fun p => if p.1 == k then (k, v) else p
  else m ++ [(k, v)]

/-- One step of the dict comprehension on line 84: an item with a
`country` field is inserted under that country, others are dropped. -/
def countryStep (m : List (String × CItem)) (item : CItem) :
    List (String × CItem) :=
  match item.country with
  | some c => dictInsert m c item
  | none => m

/-- The dict comprehension on line 84:
`{item["country"]: item for item in parsed if "country" in item}`. -/
def buildCountryMap (items : List CItem) : List (String × CItem) :=
  items.foldl countryStep []

/-- `generate_cultural_map_insights` (lines 47-87). The provider is the
oracle `gpt`, `json.loads` (restricted to this call's expected shape,
with `none` for a parse failure or a shape that makes the comprehension
throw) is the oracle `jsonLoads`. Empty country list, empty content,
and unparsable content all yield the empty mapping. -/
def generate_cultural_map_insights (gpt : CultureCall → Option String)
    (jsonLoads : String → Option (List CItem))
    (countries : List String) (language : String) : List (String × CItem) :=
  if countries = [] then []
  else
    let content := gpt (culture_call countries language)
    match content with
    | none => []
    | some c =>
      if c = "" then []
      else
        match jsonLoads c with
        | none => []
        | some parsed => buildCountryMap parsed

/-- The parsed persona JSON as far as the handler reads it:
`parsed.get("culturalTwin", "Unknown")` is its only field access. -/
structure Persona where
  culturalTwin : Option String
deriving Repr, DecidableEq

/-- The 200 response body of `/analyze` (lines 244-248); `result` is
re-serialized by `json.dumps`, modelled by the parsed value itself. -/
structure Payload where
  result : Persona
  culturalTwin : String
  countryInsights : List (String × CItem)
deriving Repr, DecidableEq

/-- An HTTP error response: the `HTTPException` the endpoint raises. -/
structure HErr where
  status : Nat
  detail : String
deriving Repr, DecidableEq

/-- All external collaborators of one request, as oracles. -/
structure Env where
  auto : String → AutoResp
  trending : String → String → TrendResp
  personaGpt : PersonaCall → Option String
  personaLoads : String → Except String Persona
  cultureGpt : CultureCall → Option String
  cultureLoads : String → Option (List CItem)

/-- The request body: every field may be absent. `movies`, `music`,
`brands`, `gender` are read with `body[...]`, the rest with
`body.get(..., default)`. -/
structure Body where
  movies : Option String
  music : Option String
  brands : Option String
  gender : Option String
  language : Option String
  variation : Option Int
deriving Repr

/-- `body[key]`: raises `KeyError(key)` when the field is absent. -/
def bodyGet {α : Type} (v : Option α) (key : String) : Except Exc α :=
  match v with
  | some x => .ok x
  | none => .error (.keyError key)

/-- The fixed country list of line 241. -/
def sample_countries : List String := ["USA", "South Korea", "UK", "Japan"]

/-- The body of the `try` block of `analyze_profile` (lines 210-248),
with accesses in source order: `music`, `movies`, `brands` first
(lines 217-219), `gender` only when the persona call's arguments are
evaluated (line 233). -/
def analyze_profile_try (env : Env) (body : Body) : Except Exc Payload :=
  let variation := body.variation.getD 0
  let language := body.language.getD "en"
  match bodyGet body.music "music" with
  | .error e => .error e
  | .ok music =>
  match bodyGet body.movies "movies" with
  | .error e => .error e
  | .ok movies =>
  match bodyGet body.brands "brands" with
  | .error e => .error e
  | .ok brands =>
  let music_id := autocomplete_entity env.auto music "artist"
  let movie_id := autocomplete_entity env.auto movies "movie"
  let brand_id := autocomplete_entity env.auto brands "brand"
  let music_trends := get_qloo_trending env.trending music_id "artist"
  let movie_trends := get_qloo_trending env.trending movie_id "movie"
  let brand_trends := get_qloo_trending env.trending brand_id "brand"
  let qloo_suggestions := music_trends ++ movie_trends ++ brand_trends
  match bodyGet body.gender "gender" with
  | .error e => .error e
  | .ok gender =>
  match generate_persona_from_taste env.personaGpt movies music brands
      gender qloo_suggestions language variation with
  | .error e => .error e
  | .ok ai_result =>
  match env.personaLoads ai_result with
  | .error m => .error (.jsonDecodeError m)
  | .ok parsed =>
  let country_insights := generate_cultural_map_insights env.cultureGpt
    env.cultureLoads sample_countries language
  .ok { result := parsed,
        culturalTwin := parsed.culturalTwin.getD "Unknown",
        countryInsights := country_insights }

/-- `analyze_profile` (lines 207-252): any exception from the `try`
block becomes `HTTPException(500, f"Analysis failed: {str(e)}")`. -/
def analyze_profile (env : Env) (body : Body) : Except HErr Payload :=
  match analyze_profile_try env body with
  | .ok p => .ok p
  | .error e =>
    .error { status := 500, detail := "Analysis failed: " ++ excMessage e }

/-- The trend list the handler computes for one category: resolution
followed by the trending lookup (lines 217-224). -/
def analyze_trends (auto : String → AutoResp)
    (trending : String → String → TrendResp) (query category : String) :
    List String :=
  get_qloo_trending trending (autocomplete_entity auto query category)
    category

/-! ## Helper lemmas -/

theorem firstMatchId_of_no_match {entity_type : String} {rs : List Candidate}
    (h : ∀ r ∈ rs, matchesType entity_type r.type = false) :
    firstMatchId entity_type rs = none := by
  induction rs with
  | nil => rfl
  | cons r rs ih =>
    rw [firstMatchId, if_neg]
    · exact ih fun x hx => h x (List.mem_cons_of_mem _ hx)
    · simp [h r (List.mem_cons_self r rs)]

theorem firstMatchId_append {entity_type : String} {pre post : List Candidate}
    {r : Candidate} (hpre : ∀ x ∈ pre, matchesType entity_type x.type = false)
    (hr : matchesType entity_type r.type = true) :
    firstMatchId entity_type (pre ++ r :: post) = some (r.id.getD "") := by
  induction pre with
  | nil => simp [firstMatchId, hr]
  | cons a pre ih =>
    rw [List.cons_append, firstMatchId, if_neg]
    · exact ih fun x hx => hpre x (List.mem_cons_of_mem _ hx)
    · simp [hpre a (List.mem_cons_self a pre)]

theorem ciMatch_eq_matchesType {entity_type : String}
    (h : pyLower entity_type = entity_type) (ty : Option String) :
    ciMatch entity_type ty = matchesType entity_type ty := by
  simp only [ciMatch, matchesType, h]

theorem filter_name_map_eq_filterMap (l : List TrendItem) :
    (l.filter fun i => i.name.isSome).map (fun i => i.name.getD "Unknown") =
      l.filterMap TrendItem.name := by
  induction l with
  | nil => rfl
  | cons a l ih =>
    cases h : a.name <;>
      simp_all [List.filter_cons, List.filterMap_cons, h]

theorem generate_persona_of_empty (gpt : PersonaCall → Option String)
    (movies music brands gender : String) (qs : List String)
    (lang : String) (v : Int)
    (h : ∀ pc, gpt pc = none ∨ gpt pc = some "") :
    generate_persona_from_taste gpt movies music brands gender qs lang v =
      .error (.httpExc 500 "GPT returned empty response") := by
  unfold generate_persona_from_taste
  rcases h (persona_call movies music brands gender qs lang v) with h1 | h1 <;>
    simp [h1]

theorem generate_persona_of_const (gpt : PersonaCall → Option String)
    (c : String) (movies music brands gender : String) (qs : List String)
    (lang : String) (v : Int)
    (hgpt : ∀ pc, gpt pc = some c) (hc : c ≠ "") :
    generate_persona_from_taste gpt movies music brands gender qs lang v =
      .ok (pyStrip c) := by
  unfold generate_persona_from_taste
  rw [hgpt]
  simp [hc]

theorem generate_cultural_map_of_failed (gpt : CultureCall → Option String)
    (loads : String → Option (List CItem)) (countries : List String)
    (lang : String)
    (h : gpt (culture_call countries lang) = none ∨
         gpt (culture_call countries lang) = some "" ∨
         ∃ s, gpt (culture_call countries lang) = some s ∧ loads s = none) :
    generate_cultural_map_insights gpt loads countries lang = [] := by
  unfold generate_cultural_map_insights
  by_cases h0 : countries = []
  · simp [h0]
  · rcases h with h1 | h1 | ⟨s, hs, hl⟩
    · simp [h0, h1]
    · simp [h0, h1]
    · by_cases hse : s = "" <;> simp [h0, hs, hse, hl]

/-! ## C2: persona sampling temperature -/

/-- C2: for every integer variation seed `v`, the temperature carried by
the persona model call equals `min(0.8 + 0.05*v, 2.0)`; in particular it
is `0.8` at `v = 0` and `2.0` (clamped) at `v = 24` and `v = 100`. -/
theorem persona_temperature_formula :
    (∀ (m mu b g : String) (s : List String) (lang : String) (v : Int),
        (persona_call m mu b g s lang v).temperature =
          min (0.8 + 0.05 * (v : ℚ)) 2) ∧
    (∀ (m mu b g : String) (s : List String) (lang : String),
        (persona_call m mu b g s lang 0).temperature = 0.8 ∧
        (persona_call m mu b g s lang 24).temperature = 2 ∧
        (persona_call m mu b g s lang 100).temperature = 2) := by
  constructor
  · intro m mu b g s lang v
    simp [persona_call, capped_temperature, base_temperature, mul_comm]
  · intro m mu b g s lang
    refine ⟨?_, ?_, ?_⟩ <;>
      norm_num [persona_call, capped_temperature, base_temperature, min_def]

/-! ## C8: display-language resolution -/

/-- C8: both synthesizers resolve the display language through
`LANGUAGE_MAPPING.get(language, "English")`; every code outside
{en, tr, es, fr, de, hi, zh, it} resolves to "English", and each code in
the set resolves to its fixed display name. -/
theorem language_resolution :
    (∀ (m mu b g : String) (s : List String) (code : String) (v : Int),
        (persona_call m mu b g s code v).target_language =
          language_display code) ∧
    (∀ (cs : List String) (code : String),
        (culture_call cs code).target_language = language_display code) ∧
    (∀ code : String,
        code ∉ ["en", "tr", "es", "fr", "de", "hi", "zh", "it"] →
        language_display code = "English") ∧
    (language_display "en" = "English" ∧ language_display "tr" = "Turkish" ∧
     language_display "es" = "Spanish" ∧ language_display "fr" = "French" ∧
     language_display "de" = "German" ∧ language_display "hi" = "Hindi" ∧
     language_display "zh" = "Chinese" ∧ language_display "it" = "Italian") := by
  refine ⟨fun _ _ _ _ _ _ _ => rfl, fun _ _ => rfl, ?_, by decide⟩
  intro code h
  simp only [List.mem_cons, List.not_mem_nil, or_false, not_or] at h
  obtain ⟨h1, h2, h3, h4, h5, h6, h7, h8⟩ := h
  have e1 : (code == "en") = false := beq_eq_false_iff_ne.mpr h1
  have e2 : (code == "tr") = false := beq_eq_false_iff_ne.mpr h2
  have e3 : (code == "es") = false := beq_eq_false_iff_ne.mpr h3
  have e4 : (code == "fr") = false := beq_eq_false_iff_ne.mpr h4
  have e5 : (code == "de") = false := beq_eq_false_iff_ne.mpr h5
  have e6 : (code == "hi") = false := beq_eq_false_iff_ne.mpr h6
  have e7 : (code == "zh") = false := beq_eq_false_iff_ne.mpr h7
  have e8 : (code == "it") = false := beq_eq_false_iff_ne.mpr h8
  simp [language_display, LANGUAGE_MAPPING, List.lookup,
    e1, e2, e3, e4, e5, e6, e7, e8]

/-- Witness for C8 at the unrecognized code "xx". -/
theorem language_resolution_witness :
    ("xx" ∉ ["en", "tr", "es", "fr", "de", "hi", "zh", "it"]) ∧
    language_display "xx" = "English" :=
  ⟨by decide, language_resolution.2.2.1 "xx" (by decide)⟩

/-! ## C5: entity resolution -/

/-- C5: for a lowercase category, the resolver returns `none` on any
non-200 response; on a 200 response it returns `none` when no candidate
type contains the category (case-insensitively), and the id of the first
candidate whose type matches otherwise. -/
theorem autocomplete_entity_spec (auto : String → AutoResp)
    (query entity_type : String)
    (hlc : pyLower entity_type = entity_type) :
    ((auto query).status ≠ 200 →
      autocomplete_entity auto query entity_type = none) ∧
    ((auto query).status = 200 →
      ((∀ r ∈ (auto query).results, ciMatch entity_type r.type = false) →
        autocomplete_entity auto query entity_type = none) ∧
      (∀ (pre post : List Candidate) (r : Candidate) (i : String),
        (auto query).results = pre ++ r :: post →
        (∀ x ∈ pre, ciMatch entity_type x.type = false) →
        ciMatch entity_type r.type = true →
        r.id = some i →
        autocomplete_entity auto query entity_type = some i)) := by
  constructor
  · intro h
    simp [autocomplete_entity, h]
  · intro h
    constructor
    · intro hall
      simp only [autocomplete_entity, h, if_pos]
      exact firstMatchId_of_no_match fun r hr => by
        rw [← ciMatch_eq_matchesType hlc]; exact hall r hr
    · intro pre post r i hres hpre hr hid
      simp only [autocomplete_entity, h, if_pos, hres]
      rw [firstMatchId_append
        (fun x hx => by rw [← ciMatch_eq_matchesType hlc]; exact hpre x hx)
        (by rw [← ciMatch_eq_matchesType hlc]; exact hr)]
      rw [hid]
      rfl

/-- Witness for C5: a 200 response whose second candidate is the first
with a type containing "artist". -/
theorem autocomplete_entity_spec_witness :
    pyLower "artist" = "artist" ∧
    autocomplete_entity
      (fun _ => ⟨200, [⟨some "urn:entity:Movie", some "M1"⟩,
                       ⟨some "urn:entity:Artist", some "A1"⟩]⟩)
      "Daft Punk" "artist" = some "A1" := by
  refine ⟨by decide, ?_⟩
  exact ((autocomplete_entity_spec
      (fun _ => ⟨200, [⟨some "urn:entity:Movie", some "M1"⟩,
                       ⟨some "urn:entity:Artist", some "A1"⟩]⟩)
      "Daft Punk" "artist" (by decide)).2 rfl).2
    [⟨some "urn:entity:Movie", some "M1"⟩] []
    ⟨some "urn:entity:Artist", some "A1"⟩ "A1" rfl (by decide) (by decide) rfl

/-! ## C6: trend fetching -/

/-- C6: an absent identifier yields the empty list without a provider
call; for a present (non-empty) identifier a 200 response yields the
`name` of every item that has one, in provider order, and any other
response yields the empty list. -/
theorem get_qloo_trending_spec :
    (∀ (trending : String → String → TrendResp) (entity_type : String),
        get_qloo_trending trending none entity_type = [] ∧
        qloo_trending_calls none = false) ∧
    (∀ (trending : String → String → TrendResp) (entity_type eid : String),
        eid ≠ "" →
        ((trending eid entity_type).status = 200 →
          get_qloo_trending trending (some eid) entity_type =
            (trending eid entity_type).results.filterMap TrendItem.name) ∧
        ((trending eid entity_type).status ≠ 200 →
          get_qloo_trending trending (some eid) entity_type = [])) := by
  constructor
  · intro trending entity_type
    exact ⟨rfl, rfl⟩
  · intro trending entity_type eid he
    have hf : pyFalsy (some eid) = false := by
      simp [pyFalsy, he]
    constructor
    · intro h200
      simp only [get_qloo_trending, hf, Bool.false_eq_true, if_false,
        Option.getD_some, h200, if_pos]
      exact filter_name_map_eq_filterMap _
    · intro hne
      simp [get_qloo_trending, hf, hne]

/-- Witness for C6: a 200 response with a nameless middle item. -/
theorem get_qloo_trending_spec_witness :
    ("E1" : String) ≠ "" ∧
    get_qloo_trending
      (fun _ _ => ⟨200, [⟨some "A"⟩, ⟨none⟩, ⟨some "B"⟩]⟩)
      (some "E1") "artist" = ["A", "B"] := by
  refine ⟨by decide, ?_⟩
  have h := ((get_qloo_trending_spec.2
    (fun _ _ => ⟨200, [⟨some "A"⟩, ⟨none⟩, ⟨some "B"⟩]⟩)
    "artist" "E1" (by decide)).1 rfl)
  rw [h]
  decide

/-! ## C10: empty-string identifier -/

/-- C10: when the first type-matching candidate has no `id` field the
resolver returns `some ""` (not `none`), and the trend fetcher treats
`some ""` exactly like an absent identifier: empty result, no call. -/
theorem empty_string_id_behavior :
    (∀ (auto : String → AutoResp) (query entity_type : String)
        (pre post : List Candidate) (r : Candidate),
        (auto query).status = 200 →
        (auto query).results = pre ++ r :: post →
        (∀ x ∈ pre, matchesType entity_type x.type = false) →
        matchesType entity_type r.type = true →
        r.id = none →
        autocomplete_entity auto query entity_type = some "") ∧
    (∀ (trending : String → String → TrendResp) (entity_type : String),
        get_qloo_trending trending (some "") entity_type = [] ∧
        qloo_trending_calls (some "") = false) := by
  constructor
  · intro auto query entity_type pre post r h200 hres hpre hr hid
    simp only [autocomplete_entity, h200, if_pos, hres]
    rw [firstMatchId_append hpre hr, hid]
    rfl
  · intro trending entity_type
    exact ⟨rfl, rfl⟩

/-- Witness for C10: a matching candidate without an id resolves to
`some ""`, which the trend fetcher then ignores. -/
theorem empty_string_id_behavior_witness :
    autocomplete_entity
      (fun _ => ⟨200, [⟨some "urn:entity:brand", none⟩]⟩) "Nike" "brand" =
      some "" ∧
    get_qloo_trending
      (fun _ _ => ⟨200, [⟨some "A"⟩]⟩) (some "") "brand" = [] := by
  constructor
  · exact empty_string_id_behavior.1
      (fun _ => ⟨200, [⟨some "urn:entity:brand", none⟩]⟩) "Nike" "brand"
      [] [] ⟨some "urn:entity:brand", none⟩ rfl rfl (by decide) (by decide) rfl
  · exact (empty_string_id_behavior.2 (fun _ _ => ⟨200, [⟨some "A"⟩]⟩)
      "brand").1

/-! ## C3: empty persona response fails the request -/

/-- C3: when the request body has all four required fields and the
persona model call produces empty (or null) content, the endpoint
returns an HTTP 500 whose detail contains "GPT returned empty response";
no 200 response is produced. -/
theorem persona_empty_gives_500 (env : Env) (body : Body)
    (mu mv mb g : String)
    (hmu : body.music = some mu) (hmv : body.movies = some mv)
    (hmb : body.brands = some mb) (hg : body.gender = some g)
    (hgpt : ∀ pc, env.personaGpt pc = none ∨ env.personaGpt pc = some "") :
    analyze_profile env body =
      .error ⟨500, "Analysis failed: 500: GPT returned empty response"⟩ ∧
    pyInStr "GPT returned empty response"
      "Analysis failed: 500: GPT returned empty response" = true := by
  refine ⟨?_, by decide⟩
  unfold analyze_profile analyze_profile_try
  rw [hmu, hmv, hmb, hg]
  simp only [bodyGet]
  rw [generate_persona_of_empty env.personaGpt mv mu mb g _ _ _ hgpt]
  rfl

/-- Witness for C3. -/
theorem persona_empty_gives_500_witness :
    analyze_profile
      ⟨fun _ => ⟨404, []⟩, fun _ _ => ⟨404, []⟩, fun _ => none,
       fun _ => .error "boom", fun _ => none, fun _ => none⟩
      ⟨some "Inception", some "Daft Punk", some "Nike", some "male",
       none, none⟩ =
      .error ⟨500, "Analysis failed: 500: GPT returned empty response"⟩ :=
  (persona_empty_gives_500
    ⟨fun _ => ⟨404, []⟩, fun _ _ => ⟨404, []⟩, fun _ => none,
     fun _ => .error "boom", fun _ => none, fun _ => none⟩
    ⟨some "Inception", some "Daft Punk", some "Nike", some "male",
     none, none⟩
    "Daft Punk" "Inception" "Nike" "male" rfl rfl rfl rfl
    (fun _ => Or.inl rfl)).1

/-! ## C4: cultural-map failures degrade to an empty mapping -/

/-- C4: when the persona path succeeds but the cultural-map model call
returns empty content or content that fails to parse, the request still
succeeds and `countryInsights` is the empty mapping. -/
theorem cultural_map_degrades (env : Env) (body : Body)
    (mu mv mb g c : String) (p : Persona)
    (hmu : body.music = some mu) (hmv : body.movies = some mv)
    (hmb : body.brands = some mb) (hg : body.gender = some g)
    (hgpt : ∀ pc, env.personaGpt pc = some c) (hc : c ≠ "")
    (hload : env.personaLoads (pyStrip c) = .ok p)
    (hcult : ∀ cc, env.cultureGpt cc = none ∨ env.cultureGpt cc = some "" ∨
        ∃ s, env.cultureGpt cc = some s ∧ env.cultureLoads s = none) :
    analyze_profile env body =
      .ok ⟨p, p.culturalTwin.getD "Unknown", []⟩ := by
  unfold analyze_profile analyze_profile_try
  rw [hmu, hmv, hmb, hg]
  simp only [bodyGet]
  rw [generate_persona_of_const env.personaGpt c mv mu mb g _ _ _ hgpt hc]
  simp only [hload]
  rw [generate_cultural_map_of_failed env.cultureGpt env.cultureLoads
    sample_countries _ (hcult _)]

/-- Witness for C4: the persona model answers, the cultural-map model
returns unparsable content, and the request succeeds with an empty
`countryInsights`. -/
theorem cultural_map_degrades_witness :
    analyze_profile
      ⟨fun _ => ⟨404, []⟩, fun _ _ => ⟨404, []⟩, fun _ => some "J",
       fun s => .ok ⟨some s⟩, fun _ => some "not json", fun _ => none⟩
      ⟨some "Inception", some "Daft Punk", some "Nike", some "male",
       none, none⟩ =
      .ok ⟨⟨some (pyStrip "J")⟩, pyStrip "J", []⟩ := by
  have h := cultural_map_degrades
    ⟨fun _ => ⟨404, []⟩, fun _ _ => ⟨404, []⟩, fun _ => some "J",
     fun s => .ok ⟨some s⟩, fun _ => some "not json", fun _ => none⟩
    ⟨some "Inception", some "Daft Punk", some "Nike", some "male",
     none, none⟩
    "Daft Punk" "Inception" "Nike" "male" "J" ⟨some (pyStrip "J")⟩
    rfl rfl rfl rfl (fun _ => rfl) (by decide) rfl
    (fun cc => Or.inr (Or.inr ⟨"not json", rfl, rfl⟩))
  exact h

/-! ## C9: missing required request field -/

/-- C9: a body missing a required field makes the handler raise a
`KeyError` for that field's key, which the top-level handler converts to
an HTTP 500 whose detail quotes the missing key. Fields are read in
source order: `music`, `movies`, `brands`, then `gender`. -/
theorem missing_field_gives_500 (env : Env) (body : Body) :
    (body.music = none →
      analyze_profile env body =
        .error ⟨500, "Analysis failed: 'music'"⟩) ∧
    (body.music ≠ none → body.movies = none →
      analyze_profile env body =
        .error ⟨500, "Analysis failed: 'movies'"⟩) ∧
    (body.music ≠ none → body.movies ≠ none → body.brands = none →
      analyze_profile env body =
        .error ⟨500, "Analysis failed: 'brands'"⟩) ∧
    (body.music ≠ none → body.movies ≠ none → body.brands ≠ none →
      body.gender = none →
      analyze_profile env body =
        .error ⟨500, "Analysis failed: 'gender'"⟩) ∧
    (pyInStr "music" "Analysis failed: 'music'" = true ∧
     pyInStr "movies" "Analysis failed: 'movies'" = true ∧
     pyInStr "brands" "Analysis failed: 'brands'" = true ∧
     pyInStr "gender" "Analysis failed: 'gender'" = true) := by
  refine ⟨?_, ?_, ?_, ?_, by decide⟩
  · intro h1
    unfold analyze_profile analyze_profile_try
    rw [h1]
    rfl
  · intro h1 h2
    obtain ⟨mu, hmu⟩ := Option.ne_none_iff_exists'.mp h1
    unfold analyze_profile analyze_profile_try
    rw [hmu, h2]
    rfl
  · intro h1 h2 h3
    obtain ⟨mu, hmu⟩ := Option.ne_none_iff_exists'.mp h1
    obtain ⟨mv, hmv⟩ := Option.ne_none_iff_exists'.mp h2
    unfold analyze_profile analyze_profile_try
    rw [hmu, hmv, h3]
    rfl
  · intro h1 h2 h3 h4
    obtain ⟨mu, hmu⟩ := Option.ne_none_iff_exists'.mp h1
    obtain ⟨mv, hmv⟩ := Option.ne_none_iff_exists'.mp h2
    obtain ⟨mb, hmb⟩ := Option.ne_none_iff_exists'.mp h3
    unfold analyze_profile analyze_profile_try
    rw [hmu, hmv, hmb, h4]
    rfl

/-- Witness for C9: a body with everything but `gender`. -/
theorem missing_field_gives_500_witness :
    analyze_profile
      ⟨fun _ => ⟨404, []⟩, fun _ _ => ⟨404, []⟩, fun _ => none,
       fun _ => .error "boom", fun _ => none, fun _ => none⟩
      ⟨some "Inception", some "Daft Punk", some "Nike", none,
       none, none⟩ =
      .error ⟨500, "Analysis failed: 'gender'"⟩ :=
  (missing_field_gives_500
    ⟨fun _ => ⟨404, []⟩, fun _ _ => ⟨404, []⟩, fun _ => none,
     fun _ => .error "boom", fun _ => none, fun _ => none⟩
    ⟨some "Inception", some "Daft Punk", some "Nike", none,
     none, none⟩).2.2.2.1
    (by simp) (by simp) (by simp) rfl

/-! ## C7: suggestion-list concatenation order -/

/-- C7: the handler's behavior depends on the persona oracle only at
calls whose suggestion list is exactly
music-trends ++ movie-trends ++ brand-trends: replacing the oracle by
one that agrees on such calls leaves the response unchanged, whichever
categories resolved or returned results. -/
theorem suggestions_concatenation
    (auto : String → AutoResp) (trending : String → String → TrendResp)
    (g1 g2 : PersonaCall → Option String)
    (pLoads : String → Except String Persona)
    (cGpt : CultureCall → Option String)
    (cLoads : String → Option (List CItem))
    (body : Body) (mu mv mb : String)
    (hmu : body.music = some mu) (hmv : body.movies = some mv)
    (hmb : body.brands = some mb)
    (hagree : ∀ pc, pc.qloo_suggestions =
        analyze_trends auto trending mu "artist" ++
          analyze_trends auto trending mv "movie" ++
          analyze_trends auto trending mb "brand" →
        g2 pc = g1 pc) :
    analyze_profile ⟨auto, trending, g2, pLoads, cGpt, cLoads⟩ body =
      analyze_profile ⟨auto, trending, g1, pLoads, cGpt, cLoads⟩ body := by
  unfold analyze_profile analyze_profile_try
  rw [hmu, hmv, hmb]
  simp only [bodyGet]
  cases hg : body.gender with
  | none => rfl
  | some g =>
    unfold generate_persona_from_taste
    have h := hagree
      (persona_call mv mu mb g
        (get_qloo_trending trending (autocomplete_entity auto mu "artist")
            "artist" ++
          get_qloo_trending trending (autocomplete_entity auto mv "movie")
            "movie" ++
          get_qloo_trending trending (autocomplete_entity auto mb "brand")
            "brand")
        (body.language.getD "en") (body.variation.getD 0))
      (by simp [persona_call, analyze_trends])
    simp only [h]

/-- Witness for C7: two oracles that agree on empty-suggestion calls
give the same response when no category resolves. -/
theorem suggestions_concatenation_witness :
    analyze_profile
      ⟨fun _ => ⟨404, []⟩, fun _ _ => ⟨404, []⟩,
       fun pc => if pc.qloo_suggestions.isEmpty then some "A" else some "B",
       fun s => .ok ⟨some s⟩, fun _ => none, fun _ => none⟩
      ⟨some "Inception", some "Daft Punk", some "Nike", some "male",
       none, none⟩ =
      analyze_profile
      ⟨fun _ => ⟨404, []⟩, fun _ _ => ⟨404, []⟩, fun _ => some "A",
       fun s => .ok ⟨some s⟩, fun _ => none, fun _ => none⟩
      ⟨some "Inception", some "Daft Punk", some "Nike", some "male",
       none, none⟩ :=
  suggestions_concatenation
    (fun _ => ⟨404, []⟩) (fun _ _ => ⟨404, []⟩)
    (fun _ => some "A")
    (fun pc => if pc.qloo_suggestions.isEmpty then some "A" else some "B")
    (fun s => .ok ⟨some s⟩) (fun _ => none) (fun _ => none)
    ⟨some "Inception", some "Daft Punk", some "Nike", some "male",
     none, none⟩
    "Daft Punk" "Inception" "Nike" rfl rfl rfl
    (fun pc h => by
      show (if pc.qloo_suggestions.isEmpty then some "A" else some "B") =
        some "A"
      rw [h]
      rfl)

/-! ## C1: cultural-map keys come from the parsed output -/

theorem dictInsert_keys_mem {m : List (String × CItem)} {k : String}
    {v : CItem} {x : String}
    (hx : x ∈ (dictInsert m k v).map Prod.fst) :
    x ∈ m.map Prod.fst ∨ x = k := by
  unfold dictInsert at hx
  by_cases h : m.any fun p => p.1 == k
  · rw [if_pos h, List.map_map] at hx
    obtain ⟨p, hp, hpe⟩ := List.mem_map.mp hx
    simp only [Function.comp_apply] at hpe
    by_cases hpk : p.1 = k
    · right
      rw [if_pos (by simp [hpk])] at hpe
      exact hpe.symm
    · left
      rw [if_neg (by simp [hpk])] at hpe
      exact List.mem_map.mpr ⟨p, hp, hpe⟩
  · rw [if_neg h, List.map_append] at hx
    rcases List.mem_append.mp hx with h1 | h1
    · exact Or.inl h1
    · right
      simpa using h1

theorem foldl_countryStep_keys {x : String} :
    ∀ (items : List CItem) (acc : List (String × CItem)),
      x ∈ ((items.foldl countryStep acc).map Prod.fst) →
      x ∈ acc.map Prod.fst ∨ ∃ it ∈ items, it.country = some x := by
  intro items
  induction items with
  | nil => exact fun acc h => Or.inl h
  | cons a items ih =>
    intro acc h
    rw [List.foldl_cons] at h
    rcases ih (countryStep acc a) h with h1 | h1
    · cases hc : a.country with
      | none =>
        unfold countryStep at h1
        rw [hc] at h1
        exact Or.inl h1
      | some c =>
        unfold countryStep at h1
        rw [hc] at h1
        rcases dictInsert_keys_mem h1 with h2 | h2
        · exact Or.inl h2
        · exact Or.inr ⟨a, List.mem_cons_self a items, by rw [hc, h2]⟩
    · obtain ⟨it, hit, hic⟩ := h1
      exact Or.inr ⟨it, List.mem_cons_of_mem a hit, hic⟩

/-- Counterexample to C1: the model output may carry any country value;
here a successful call over the four fixed countries produces the key
"France", which is not one of them. -/
theorem cultural_map_keys_cex :
    ¬ (∀ k ∈ (generate_cultural_map_insights
        (fun _ => some "payload")
        (fun _ => some [⟨some "France", none, none⟩])
        sample_countries "en").map Prod.fst,
        k ∈ sample_countries) := by decide

/-- C1 (amended): every key of the mapping built by the Cultural Map
Synthesizer is the `country` field of some item of the parsed model
output; keys are not restricted to the countries passed in. -/
theorem cultural_map_keys_characterization
    (gpt : CultureCall → Option String)
    (loads : String → Option (List CItem))
    (countries : List String) (language k : String)
    (hk : k ∈ (generate_cultural_map_insights gpt loads countries
        language).map Prod.fst) :
    ∃ c items, gpt (culture_call countries language) = some c ∧
      loads c = some items ∧ ∃ item ∈ items, item.country = some k := by
  unfold generate_cultural_map_insights at hk
  by_cases h0 : countries = []
  · simp [h0] at hk
  · rw [if_neg h0] at hk
    cases hgc : gpt (culture_call countries language) with
    | none => simp only [hgc] at hk; simp at hk
    | some c =>
      simp only [hgc] at hk
      by_cases hce : c = ""
      · simp [hce] at hk
      · rw [if_neg hce] at hk
        cases hlc : loads c with
        | none => simp only [hlc] at hk; simp at hk
        | some items =>
          simp only [hlc] at hk
          refine ⟨c, items, rfl, hlc, ?_⟩
          rcases foldl_countryStep_keys items [] hk with h1 | h1
          · simp at h1
          · exact h1

/-- Witness for the amended C1 at a concrete model output. -/
theorem cultural_map_keys_characterization_witness :
    ("France" ∈ (generate_cultural_map_insights
        (fun _ => some "payload")
        (fun _ => some [⟨some "France", none, none⟩])
        sample_countries "en").map Prod.fst) ∧
    ∃ c items,
      (fun _ : CultureCall => some "payload")
          (culture_call sample_countries "en") = some c ∧
      (fun _ : String =>
          some [CItem.mk (some "France") none none]) c = some items ∧
      ∃ item ∈ items, item.country = some "France" :=
  ⟨by decide,
   cultural_map_keys_characterization
     (fun _ => some "payload")
     (fun _ => some [⟨some "France", none, none⟩])
     sample_countries "en" "France" (by decide)⟩

end TasteMirror
